import Mathlib

/-!
Verification of the natural-language specification of the keras-cv
Stable Diffusion / Prompt-to-Prompt code against a shallow embedding of
`keras_cv/models/stable_diffusion/stable_diffusion.py` and
`keras_cv/models/stable_diffusion/prompt_to_prompt_utils.py`.

Conventions of the embedding:
* machine floats are modelled by exact rationals (`ℚ`); `math.sqrt` is
  abstracted as a function parameter where it occurs;
* TensorFlow tensors holding attention weights are modelled as functions
  `ι → κ → ℚ` over abstract index types (all claims below are about
  forward passes with identically shaped inputs, so the shapes — hence the
  index types — are fixed and `tf.reshape` to the same shape is the
  identity);
* the dynamically shaped `tf.Variable`s initialised to `[]` are modelled
  as `Option`-valued fields, `none` standing for the empty variable;
* Python exceptions (`raise ValueError`) are modelled with `Except String`.
-/

/-! ### Timestep schedule: `tf.range(1, 1000, 1000 // num_steps)`
(stable_diffusion.py lines 209, 417, 639) -/

/-- One unfolding step of a Python/TF integer `range`: produces
`start, start+step, ...` while `start < stop`, with explicit fuel to make
the recursion structural. -/
def pyRangeAux (step : ℕ) : ℕ → ℕ → ℕ → List ℕ
  | 0, _, _ => []
  | fuel + 1, start, stop =>
    if start < stop then start :: pyRangeAux step fuel (start + step) stop
    else []

/-- `pyRange start stop step` is Python `range(start, stop, step)` for a
positive step; `stop - start` units of fuel suffice since each element
advances `start` by at least one. -/
def pyRange (start stop step : ℕ) : List ℕ :=
  pyRangeAux step (stop - start) start stop

/-- Ceiling division on naturals, the length of `range(0, d, s)`. -/
def ceilDiv (d s : ℕ) : ℕ :=
  if d = 0 then 0 else (d - 1) / s + 1

/-- The timestep sequence built by `generate_image`, `prompt_to_prompt`
and `inpaint`: `tf.range(1, 1000, 1000 // num_steps)` (ascending
construction order). -/
def timestepsOf (num_steps : ℕ) : List ℕ :=
  pyRange 1 1000 (1000 / num_steps)

/-- The order in which the diffusion loop consumes the timesteps:
`list(enumerate(timesteps))[::-1]`, i.e. the reverse of the constructed
sequence. -/
def consumedTimesteps (num_steps : ℕ) : List ℕ :=
  (timestepsOf num_steps).reverse

/-- `StableDiffusionBase._get_initial_alphas`: `alphas = [table[t] for t
in timesteps]`, `alphas_prev = [1.0] + alphas[:-1]`.  The 1000-entry
cumulative-alpha table lives in `constants.py` (not part of the sources
under verification) and is abstracted as a function `table`; the claims
below do not depend on its values. -/
def _get_initial_alphas (table : ℕ → ℚ) (timesteps : List ℕ) :
    List ℚ × List ℚ :=
  let alphas := timesteps.map table
  (alphas, 1 :: alphas.dropLast)

/-! ### Per-layer interception state
(`set_initial_tf_variables` / `reset_initial_tf_variables`,
prompt_to_prompt_utils.py lines 152-208) -/

/-- The control and array `tf.Variable`s attached to every intercepted
attention layer by `set_initial_tf_variables`.  The dynamically shaped
array variables start out as `[]`; that empty value is modelled as
`none`.  `ι` indexes the flattened leading axes (batch x heads x query
positions) of an attention-weight tensor and `κ` its last (key/token)
axis. -/
structure AttnState (ι κ : Type) where
  cross_attn_mode : String
  use_prompt_weights : Bool
  attn_map : Option (ι → κ → ℚ)
  prompt_edit_mask : Option (κ → ℚ)
  prompt_edit_indices : Option (κ → κ)
  prompt_weights : Option (κ → ℚ)

/-- `reset_initial_tf_variables` (prompt_to_prompt_utils.py lines
192-208), restricted to a single layer: mode becomes the empty string,
`use_prompt_weights` becomes `False`, and the four array variables are
assigned `[]`. -/
def reset_initial_tf_variables {ι κ : Type} (_s : AttnState ι κ) :
    AttnState ι κ :=
  { cross_attn_mode := ""
    use_prompt_weights := false
    attn_map := none
    prompt_edit_mask := none
    prompt_edit_indices := none
    prompt_weights := none }

/-- The weight-resolution core of `call_attention_edit`
(prompt_to_prompt_utils.py lines 243-268).  The function receives the
raw softmax attention weights `weights` (the q/k/v projections, softmax
and the final `weights · V` product are outside the scope of the claims)
and returns the effective weights later multiplied against `V`, together
with the updated layer state.  The four `if` blocks of the source are
sequential and not mutually exclusive, and are reproduced in source
order: edit-blend, use_last substitution, save, re-weighting.
`tf.reshape` to the (identical) current shape is the identity here; a
branch that would make TensorFlow fail at runtime (gathering from or
reshaping the empty `attn_map` variable) yields `none`. -/
def call_attention_edit {ι κ : Type} (s : AttnState ι κ)
    (weights : ι → κ → ℚ) : Option ((ι → κ → ℚ) × AttnState ι κ) :=
  let w1opt : Option (ι → κ → ℚ) :=
    if s.cross_attn_mode = "edit" ∧ s.prompt_edit_mask.isSome then
      match s.attn_map, s.prompt_edit_mask, s.prompt_edit_indices with
      | some m, some mask, some idx =>
          some (fun i j => m i (idx j) * mask j + weights i j * (1 - mask j))
      | _, _, _ => none
    else some weights
  match w1opt with
  | none => none
  | some w1 =>
    let w2opt : Option (ι → κ → ℚ) :=
      if s.cross_attn_mode = "use_last" then s.attn_map else some w1
    match w2opt with
    | none => none
    | some w2 =>
      let s2 : AttnState ι κ :=
        if s.cross_attn_mode = "save" then { s with attn_map := some w2 }
        else s
      let w3 : ι → κ → ℚ :=
        if s.use_prompt_weights = true ∧ s.prompt_weights.isSome then
          match s.prompt_weights with
          | some pw => fun i j => w2 i j * pw j
          | none => w2
        else w2
      some (w3, s2)

/-! ### Orchestrator policy per timestep
(stable_diffusion.py lines 425-534) -/

/-- `t_scale = 1 - (timestep / 1000)` (stable_diffusion.py line 428). -/
def tScale (timestep : ℕ) : ℚ :=
  1 - (timestep : ℚ) / 1000

/-- The window-membership test of the prompt_to_prompt loop:
`steps[0] <= t_scale <= steps[1]` (stable_diffusion.py lines 455, 486),
inclusive on both ends. -/
def inWindow (w : ℚ × ℚ) (t : ℚ) : Bool :=
  decide (w.1 ≤ t ∧ t ≤ w.2)

/-- The `cross_attn_mode` held by the cross-attention (`attn2`) layers
when the edited-prompt pass runs: the loop first sets `save` (line 444),
then inside the window overwrites it with `use_last` (replace) or `edit`
(refine) — for `reweight` no mode update happens, so `save` remains —
and outside the window sets `injection` (lines 455-483). -/
def crossAttnModeForStep (method : String) (w : ℚ × ℚ) (t : ℚ) : String :=
  if inWindow w t then
    if method = "replace" then "use_last"
    else if method = "refine" then "edit"
    else "save"
  else "injection"

/-- The `cross_attn_mode` held by the self-attention (`attn1`) layers
when the edited-prompt pass runs: `use_last` inside the window,
`injection` outside (stable_diffusion.py lines 486-499). -/
def selfAttnModeForStep (w : ℚ × ℚ) (t : ℚ) : String :=
  if inWindow w t then "use_last" else "injection"

/-- The coercion applied to `self_attn_steps` / `cross_attn_steps` at
the top of `prompt_to_prompt` (stable_diffusion.py lines 360-363): a
bare float `x` becomes the window `(0.0, x)`; a pair is kept as is. -/
def coerceAttnSteps : ℚ ⊕ (ℚ × ℚ) → ℚ × ℚ
  | Sum.inl x => (0, x)
  | Sum.inr p => p

/-- The per-layer interception state produced by a complete
`prompt_to_prompt` run (stable_diffusion.py lines 425-534): the diffusion
loop mutates the state once per consumed timestep (mode updates and the
three forward passes, abstracted as `stepEffect` since they depend on
the black-box network), and after the loop and the decode the run ends
with `reset_initial_tf_variables` (lines 531-534). -/
def p2pRunStates {ι κ : Type} (stepEffect : ℕ → AttnState ι κ → AttnState ι κ)
    (timesteps : List ℕ) (init : AttnState ι κ) : AttnState ι κ :=
  reset_initial_tf_variables
    (timesteps.reverse.foldl (fun s t => stepEffect t s) init)

/-! ### DDIM stepper (`StableDiffusionBase._get_x_prev`,
stable_diffusion.py lines 842-848) -/

/-- `pred_x0 = (x - sqrt(1 - a_t) * e_t) / sqrt(a_t)`.  Scalars stand in
pointwise for the latent tensors; `math.sqrt` is abstracted as the
function parameter `sqrt`. -/
def pred_x0 (sqrt : ℚ → ℚ) (x e_t a_t : ℚ) : ℚ :=
  (x - sqrt (1 - a_t) * e_t) / sqrt a_t

/-- `_get_x_prev`: `x_prev = sqrt(a_prev) * pred_x0 + sqrt(1 - a_prev) * e_t`. -/
def _get_x_prev (sqrt : ℚ → ℚ) (x e_t a_t a_prev : ℚ) : ℚ :=
  sqrt a_prev * pred_x0 sqrt x e_t a_t + sqrt (1 - a_prev) * e_t

/-! ### Input validation (ValueError paths) -/

def MAX_PROMPT_LENGTH : ℕ := 77

/-- Message of the noise/seed ValueError shared by `generate_image`
(line 180) and `prompt_to_prompt` (line 340). -/
def noiseSeedMsg : String :=
  "`diffusion_noise` and `seed` should not both be passed to `generate_image`."

/-- Message of the noise/seed ValueError of `inpaint` (line 587). -/
def inpaintNoiseSeedMsg : String :=
  "Please pass either diffusion_noise or seed to inpaint(), seed is only used to generate diffusion noise when it is not provided. Received both diffusion_noise and seed."

/-- Message of the unknown-method ValueError of `prompt_to_prompt`
(line 348). -/
def methodMsg : String :=
  "Please pass a valid Prompt-to-Prompt method."

/-- Message of the reweight-without-weights ValueError of
`prompt_to_prompt` (line 354). -/
def reweightMsg : String :=
  "The Prompt-to-Prompt attention re-weight method requires the parameter `attn_edit_weights` to be passed with values instead of `None` or an empty array."

/-- Message of the prompt-length ValueError of `encode_text` (line 114). -/
def promptTooLongMsg : String :=
  "Prompt is too long (should be <= 77 tokens)"

/-- `StableDiffusionBase.encode_text` (lines 89-124): tokenize, raise if
more than `MAX_PROMPT_LENGTH` tokens, otherwise pad with the end-of-text
token 49407 and invoke the (black-box) text encoder.  The length check
happens before the network invocation, so an over-long prompt never
reaches `text_encoder`. -/
def encode_text {Ctx : Type} (tokenize : String → List ℤ)
    (text_encoder : List ℤ → Ctx) (prompt : String) : Except String Ctx :=
  let inputs := tokenize prompt
  if MAX_PROMPT_LENGTH < inputs.length then Except.error promptTooLongMsg
  else
    Except.ok
      (text_encoder (inputs ++ List.replicate (MAX_PROMPT_LENGTH - inputs.length) 49407))

/-- `StableDiffusionBase.generate_image` (lines 126-238) seen through
its error interface: the noise/seed ValueError is raised by the first
statement of the body; everything after the check (context expansion,
noise sampling, the diffusion loop and the decode) is abstracted as
`run`. -/
def generate_image {ν Out : Type} (run : Unit → Out)
    (diffusion_noise : Option ν) (seed : Option ℤ) : Except String Out :=
  if diffusion_noise.isSome ∧ seed.isSome then Except.error noiseSeedMsg
  else Except.ok (run ())

/-- `StableDiffusionBase.inpaint` (lines 538-695) seen through its error
interface, like `generate_image`. -/
def inpaint {ν Out : Type} (run : Unit → Out)
    (diffusion_noise : Option ν) (seed : Option ℤ) : Except String Out :=
  if diffusion_noise.isSome ∧ seed.isSome then Except.error inpaintNoiseSeedMsg
  else Except.ok (run ())

/-- `StableDiffusionBase.prompt_to_prompt` (lines 240-536) seen through
its error interface: the three ValueError checks run in source order
(noise+seed, unknown method, reweight without weights) before anything
else — in particular before the prompts are encoded, before
`put_mask_diffusion_model` / `add_attention_weights` mutate any layer
state, and before the diffusion loop; all of that later work is
abstracted as `run`, a function of the interception state `st`.  On an
error the untouched `st` is returned alongside the exception. -/
def prompt_to_prompt {ν Out St : Type} (run : St → Out × St)
    (diffusion_noise : Option ν) (seed : Option ℤ) (method : String)
    (attn_edit_weights : List ℚ) (st : St) : Except String Out × St :=
  if diffusion_noise.isSome ∧ seed.isSome then (Except.error noiseSeedMsg, st)
  else if method ∉ ["refine", "replace", "reweight"] then
    (Except.error methodMsg, st)
  else if method = "reweight" ∧ attn_edit_weights = [] then
    (Except.error reweightMsg, st)
  else
    let r := run st
    (Except.ok r.1, r.2)

/-! ### Concrete instances used by the witness theorems -/

/-- A concrete 1x1 raw attention-weight tensor. -/
def W0 : Unit → Unit → ℚ := fun _ _ => 1

/-- A second concrete 1x1 raw attention-weight tensor. -/
def W2c : Unit → Unit → ℚ := fun _ _ => 2

/-- A concrete 1x1 raw attention-weight tensor for the edit-blend witness. -/
def W4 : Unit → Unit → ℚ := fun _ _ => 4

/-- A concrete cached attention map. -/
def mapC : Unit → Unit → ℚ := fun _ _ => 2

/-- A concrete edit mask over the token axis. -/
def maskC : Unit → ℚ := fun _ => 1 / 2

/-- A concrete edit-index mapping over the token axis. -/
def idxC : Unit → Unit := fun u => u

/-- A layer state whose mode string is outside the enumerated mode set. -/
def bogusState : AttnState Unit Unit :=
  ⟨"bogus", false, none, none, none, none⟩

/-- A layer state in `save` mode with empty array variables. -/
def saveState : AttnState Unit Unit :=
  ⟨"save", false, none, none, none, none⟩

/-- A layer state in `edit` mode with a cached map, mask and indices. -/
def editState : AttnState Unit Unit :=
  ⟨"edit", false, some mapC, some maskC, some idxC, none⟩

/-! ### Helper lemmas about the timestep schedule -/

theorem ceilDiv_le_self (d s : ℕ) (_hs : 0 < s) : ceilDiv d s ≤ d := by
  unfold ceilDiv
  split
  · omega
  · have := Nat.div_le_self (d - 1) s
    omega

theorem ceilDiv_of_pos (d s : ℕ) (hs : 0 < s) (hd : 0 < d) :
    ceilDiv d s = ceilDiv (d - s) s + 1 := by
  unfold ceilDiv
  rcases le_or_lt d s with h | h
  · have h0 : d - 1 < s := by omega
    have h1 : (d - 1) / s = 0 := Nat.div_eq_of_lt h0
    have h2 : d - s = 0 := by omega
    simp [h1, h2, Nat.ne_of_gt hd]
  · have hds : 0 < d - s := by omega
    have hle : s ≤ d - 1 := by omega
    have h1 : (d - 1) / s = (d - 1 - s) / s + 1 := Nat.div_eq_sub_div hs hle
    have h2 : d - 1 - s = d - s - 1 := by omega
    simp [Nat.ne_of_gt hd, Nat.ne_of_gt hds, h1, h2]

theorem pyRangeAux_length (step : ℕ) (hs : 0 < step) :
    ∀ (fuel start stop : ℕ),
      (pyRangeAux step fuel start stop).length =
        min fuel (ceilDiv (stop - start) step) := by
  intro fuel
  induction fuel with
  | zero => intro start stop; simp [pyRangeAux]
  | succ n ih =>
    intro start stop
    rw [pyRangeAux]
    split
    · next hlt =>
      have hd : 0 < stop - start := by omega
      have harith : stop - (start + step) = stop - start - step := by omega
      simp only [List.length_cons, ih (start + step) stop, harith,
        ceilDiv_of_pos (stop - start) step hs hd]
      omega
    · next hge =>
      have hd : stop - start = 0 := by omega
      simp [hd, ceilDiv]

theorem pyRange_length (start stop step : ℕ) (hs : 0 < step) :
    (pyRange start stop step).length = ceilDiv (stop - start) step := by
  rw [pyRange, pyRangeAux_length step hs]
  have := ceilDiv_le_self (stop - start) step hs
  omega

theorem pyRangeAux_head? (step : ℕ) (fuel start stop : ℕ) :
    (pyRangeAux step fuel start stop).head? =
      if 0 < fuel ∧ start < stop then some start else none := by
  cases fuel with
  | zero => simp [pyRangeAux]
  | succ n =>
    rw [pyRangeAux]
    split
    · next h => simp [h]
    · next h => simp [h]

theorem pyRangeAux_chain (step : ℕ) :
    ∀ (fuel start stop : ℕ),
      List.Chain' (fun a b => b = a + step) (pyRangeAux step fuel start stop) := by
  intro fuel
  induction fuel with
  | zero => intro start stop; simp [pyRangeAux]
  | succ n ih =>
    intro start stop
    rw [pyRangeAux]
    split
    · refine List.chain'_cons'.mpr ⟨?_, ih (start + step) stop⟩
      intro b hb
      rw [pyRangeAux_head? step n (start + step) stop] at hb
      split at hb
      · simp at hb; omega
      · simp at hb
    · simp

theorem pyRange_chain (start stop step : ℕ) :
    List.Chain' (fun a b => b = a + step) (pyRange start stop step) :=
  pyRangeAux_chain step (stop - start) start stop

theorem timestepsOf_chain_lt (n : ℕ) (_h1 : 1 ≤ n) (h2 : n < 1000) :
    List.Chain' (· < ·) (timestepsOf n) := by
  have hs : 0 < 1000 / n := Nat.div_pos (by omega) (by omega)
  exact (pyRange_chain 1 1000 (1000 / n)).imp (fun a b hab => by omega)

theorem num_steps_le_ceilDiv (n : ℕ) (h1 : 1 ≤ n) (h2 : n < 1000) :
    n ≤ ceilDiv 999 (1000 / n) := by
  set s := 1000 / n with hsdef
  have hs : 0 < s := Nat.div_pos (by omega) (by omega)
  have hns : n * s ≤ 1000 := by
    rw [hsdef, Nat.mul_comm]
    exact Nat.div_mul_le_self 1000 n
  have hceil : ceilDiv 999 s = 998 / s + 1 := by unfold ceilDiv; norm_num
  rw [hceil]
  have key : (n - 1) * s ≤ 998 := by
    rcases Nat.lt_or_ge s 2 with hlt | hge
    · have hs1 : s = 1 := by omega
      simp [hs1]; omega
    · have h3 : (n - 1) * s = n * s - s := by
        rw [Nat.sub_mul, Nat.one_mul]
      rw [h3]
      omega
  have : n - 1 ≤ 998 / s := (Nat.le_div_iff_mul_le hs).mpr key
  omega

/-! ### Claim theorems -/

/-- C1 counterexample: at the concrete layer state whose mode is the
unknown string "bogus", the forward pass neither fails nor alters
anything — it returns the raw softmax weights unchanged together with
the unchanged state, contradicting the claim that an unknown mode is a
fatal configuration error. -/
theorem C1_counterexample :
    call_attention_edit bogusState W0 = some (W0, bogusState) := by
  simp [call_attention_edit, bogusState]

/-- C1 (amended): a mode string outside the enumerated set is silently
treated exactly like the neutral/unconditional path: the pass produces
the same effective weights as it would with mode `unconditional`, raises
no error, and leaves the layer state unchanged. -/
theorem C1_unknown_mode_is_silent_neutral {ι κ : Type} (s : AttnState ι κ)
    (W : ι → κ → ℚ)
    (h : s.cross_attn_mode ∉
      ["", "save", "use_last", "edit", "injection", "unconditional"]) :
    (call_attention_edit s W).map Prod.fst =
      (call_attention_edit { s with cross_attn_mode := "unconditional" } W).map
        Prod.fst ∧
    (call_attention_edit s W).map Prod.snd = some s := by
  obtain ⟨mode, upw, amap, pmask, pidx, pw⟩ := s
  simp only [List.mem_cons, List.mem_singleton, not_or] at h
  obtain ⟨h0, h1, h2, h3, h4, h5⟩ := h
  dsimp only at h0 h1 h2 h3 h4 h5 ⊢
  simp [call_attention_edit, h1, h2, h3]

/-- C1 amended-claim witness at the concrete unknown-mode state. -/
theorem C1_witness :
    (bogusState.cross_attn_mode ∉
      ["", "save", "use_last", "edit", "injection", "unconditional"]) ∧
    ((call_attention_edit bogusState W0).map Prod.fst =
      (call_attention_edit
          { bogusState with cross_attn_mode := "unconditional" } W0).map
        Prod.fst ∧
    (call_attention_edit bogusState W0).map Prod.snd = some bogusState) :=
  ⟨by decide, C1_unknown_mode_is_silent_neutral bogusState W0 (by decide)⟩

/-- C2 counterexample: `num_steps = 6` lies in `[1, 1000)` but the
constructed sequence `range(1, 1000, 1000 // 6) = range(1, 1000, 166)`
has 7 elements, not 6. -/
theorem C2_counterexample :
    (1 ≤ 6 ∧ 6 < 1000) ∧ (timestepsOf 6).length ≠ 6 := by decide

/-- C2 (amended): for every `num_steps` in `[1, 1000)` the timestep
sequence `range(1, 1000, 1000 // num_steps)` is an arithmetic sequence
with spacing `1000 // num_steps` whose length is
`ceil(999 / (1000 // num_steps))` — always at least `num_steps`, but not
always exactly `num_steps` — and it is consumed in strictly descending
order. -/
theorem C2_schedule_length_and_order (n : ℕ) (h1 : 1 ≤ n) (h2 : n < 1000) :
    (timestepsOf n).length = ceilDiv 999 (1000 / n) ∧
    n ≤ (timestepsOf n).length ∧
    List.Chain' (fun a b => b = a + 1000 / n) (timestepsOf n) ∧
    List.Chain' (fun a b => b < a) (consumedTimesteps n) := by
  have hs : 0 < 1000 / n := Nat.div_pos (by omega) (by omega)
  have hlen : (timestepsOf n).length = ceilDiv 999 (1000 / n) := by
    unfold timestepsOf
    rw [pyRange_length 1 1000 _ hs]
  refine ⟨hlen, ?_, ?_, ?_⟩
  · rw [hlen]; exact num_steps_le_ceilDiv n h1 h2
  · exact pyRange_chain 1 1000 (1000 / n)
  · unfold consumedTimesteps
    rw [List.chain'_reverse]
    simpa [flip] using timestepsOf_chain_lt n h1 h2

/-- C2 amended-claim witness at `num_steps = 50` (where the length is
exactly 50). -/
theorem C2_witness :
    (timestepsOf 50).length = ceilDiv 999 (1000 / 50) ∧
    50 ≤ (timestepsOf 50).length ∧
    List.Chain' (fun a b => b = a + 1000 / 50) (timestepsOf 50) ∧
    List.Chain' (fun a b => b < a) (consumedTimesteps 50) :=
  C2_schedule_length_and_order 50 (by decide) (by decide)

/-- C3: DDIM round trip.  For `0 < a_t ≤ 1`, re-noising the stepper's
`pred_x0` with the same `a_t` — which is exactly `_get_x_prev` evaluated
at `a_prev = a_t` — reproduces the original latent exactly (the square
root being any function that is nonzero on positive inputs, as the exact
square root is). -/
theorem C3_ddim_round_trip (sqrt : ℚ → ℚ)
    (hsqrt : ∀ y : ℚ, 0 < y → sqrt y ≠ 0) (x e_t a_t : ℚ)
    (h0 : 0 < a_t) (_h1 : a_t ≤ 1) :
    _get_x_prev sqrt x e_t a_t a_t = x := by
  have hne : sqrt a_t ≠ 0 := hsqrt a_t h0
  unfold _get_x_prev pred_x0
  field_simp

/-- C3 witness at `x = 5`, `e_t = 0`, `a_t = 1`, with the identity
standing in for the abstract square root. -/
theorem C3_witness : _get_x_prev id 5 0 1 1 = 5 :=
  C3_ddim_round_trip id (fun _ hy => ne_of_gt hy) 5 0 1 (by norm_num)
    (by norm_num)

/-- C4: a `save`-mode pass caches exactly the raw softmax weights and
passes them through; a later `use_last` pass on an identically shaped
input substitutes that cached map, so (with `use_prompt_weights` false
throughout) the second pass's effective weights equal the first pass's
raw weights exactly. -/
theorem C4_save_then_use_last {ι κ : Type} (s : AttnState ι κ)
    (W1 W2 : ι → κ → ℚ) (hmode : s.cross_attn_mode = "save")
    (hupw : s.use_prompt_weights = false) :
    call_attention_edit s W1 = some (W1, { s with attn_map := some W1 }) ∧
    (call_attention_edit
        { s with attn_map := some W1, cross_attn_mode := "use_last" } W2).map
      Prod.fst = some W1 := by
  obtain ⟨mode, upw, amap, pmask, pidx, pw⟩ := s
  dsimp only at hmode hupw
  subst hmode hupw
  constructor <;> simp [call_attention_edit]

/-- C4 witness at concrete 1x1 weight tensors. -/
theorem C4_witness :
    call_attention_edit saveState W0 =
      some (W0, { saveState with attn_map := some W0 }) ∧
    (call_attention_edit
        { saveState with attn_map := some W0, cross_attn_mode := "use_last" }
        W2c).map Prod.fst = some W0 :=
  C4_save_then_use_last saveState W0 W2c rfl rfl

/-- C5: for every valid `num_steps` in `[1, 1000)` the constructed
timestep sequence is strictly increasing (before the loop reverses it),
and the `alphas_prev` list built by `_get_initial_alphas` starts with
`1.0`, whatever the cumulative-alpha table holds. -/
theorem C5_schedule_invariants (n : ℕ) (table : ℕ → ℚ) (h1 : 1 ≤ n)
    (h2 : n < 1000) :
    List.Chain' (· < ·) (timestepsOf n) ∧
    (_get_initial_alphas table (timestepsOf n)).2.head? = some 1 :=
  ⟨timestepsOf_chain_lt n h1 h2, rfl⟩

/-- C5 witness at `num_steps = 50` with the constant-zero table. -/
theorem C5_witness :
    List.Chain' (· < ·) (timestepsOf 50) ∧
    (_get_initial_alphas (fun _ => 0) (timestepsOf 50)).2.head? = some 1 :=
  C5_schedule_invariants 50 (fun _ => 0) (by decide) (by decide)

/-- C6: in `edit` mode with a non-empty mask (and cached map and indices
present, `use_prompt_weights` false), the weights used in place of the
raw softmax weights `W` are exactly
`gather(attn_map, edit_indices, axis=-1) * mask + W * (1 - mask)`,
elementwise, and the layer state is unchanged. -/
theorem C6_edit_blend {ι κ : Type} (s : AttnState ι κ) (W m : ι → κ → ℚ)
    (mask : κ → ℚ) (idx : κ → κ) (hmode : s.cross_attn_mode = "edit")
    (hmap : s.attn_map = some m) (hmask : s.prompt_edit_mask = some mask)
    (hidx : s.prompt_edit_indices = some idx)
    (hupw : s.use_prompt_weights = false) :
    call_attention_edit s W =
      some (fun i j => m i (idx j) * mask j + W i j * (1 - mask j), s) := by
  obtain ⟨mode, upw, amap, pmask, pidx, pw⟩ := s
  dsimp only at hmode hmap hmask hidx hupw
  subst hmode hmap hmask hidx hupw
  simp [call_attention_edit]

/-- C6 witness at a concrete edit-mode state and 1x1 tensors. -/
theorem C6_witness :
    call_attention_edit editState W4 =
      some (fun i j => mapC i (idxC j) * maskC j + W4 i j * (1 - maskC j),
        editState) :=
  C6_edit_blend editState W4 mapC maskC idxC rfl rfl rfl rfl rfl

/-- C7: whatever the diffusion loop did to a layer's interception state
(the per-timestep effects are abstract), a completed `prompt_to_prompt`
run ends by resetting it to the neutral defaults: empty mode string,
`use_prompt_weights = False`, and empty `attn_map`, `prompt_edit_mask`,
`prompt_edit_indices` and `prompt_weights` — so a subsequent unrelated
generation call observes no state from the run. -/
theorem C7_state_reset_after_run {ι κ : Type}
    (stepEffect : ℕ → AttnState ι κ → AttnState ι κ) (timesteps : List ℕ)
    (init : AttnState ι κ) :
    (p2pRunStates stepEffect timesteps init).cross_attn_mode = "" ∧
    (p2pRunStates stepEffect timesteps init).use_prompt_weights = false ∧
    (p2pRunStates stepEffect timesteps init).attn_map = none ∧
    (p2pRunStates stepEffect timesteps init).prompt_edit_mask = none ∧
    (p2pRunStates stepEffect timesteps init).prompt_edit_indices = none ∧
    (p2pRunStates stepEffect timesteps init).prompt_weights = none :=
  ⟨rfl, rfl, rfl, rfl, rfl, rfl⟩

/-- C8: edit windows are inclusive on both ends.  If `t_scale` of a
timestep equals either bound of a (well-formed) window, the membership
test of the loop succeeds and the in-window interception modes are the
ones applied: `use_last` for self-attention layers, and `use_last`
(replace) or `edit` (refine) for cross-attention layers. -/
theorem C8_window_boundary_inclusive (ts : ℕ) (w : ℚ × ℚ)
    (hw : w.1 ≤ w.2) (hb : tScale ts = w.1 ∨ tScale ts = w.2) :
    inWindow w (tScale ts) = true ∧
    selfAttnModeForStep w (tScale ts) = "use_last" ∧
    crossAttnModeForStep "replace" w (tScale ts) = "use_last" ∧
    crossAttnModeForStep "refine" w (tScale ts) = "edit" := by
  have hin : inWindow w (tScale ts) = true := by
    unfold inWindow
    rcases hb with hb | hb <;> rw [hb] <;> simp [hw]
  refine ⟨hin, ?_, ?_, ?_⟩ <;>
    simp [selfAttnModeForStep, crossAttnModeForStep, hin]

/-- C8 witness: timestep 500 gives `t_scale = 1/2`, exactly the lower
bound of the window `(1/2, 1)`. -/
theorem C8_witness :
    inWindow ((1 : ℚ) / 2, (1 : ℚ)) (tScale 500) = true ∧
    selfAttnModeForStep ((1 : ℚ) / 2, (1 : ℚ)) (tScale 500) = "use_last" ∧
    crossAttnModeForStep "replace" ((1 : ℚ) / 2, (1 : ℚ)) (tScale 500) =
      "use_last" ∧
    crossAttnModeForStep "refine" ((1 : ℚ) / 2, (1 : ℚ)) (tScale 500) =
      "edit" :=
  C8_window_boundary_inclusive 500 ((1 : ℚ) / 2, (1 : ℚ)) (by norm_num)
    (Or.inl (by norm_num [tScale]))

/-- C9: every invalid parameter combination raises its ValueError
immediately: noise+seed in `generate_image`, `prompt_to_prompt` and
`inpaint`; an over-long prompt in `encode_text` (for any text encoder —
the network is never invoked); an unknown method and reweight without
weights in `prompt_to_prompt` (with the interception state returned
untouched). -/
theorem C9_usage_errors {ν Out Ctx St : Type} :
    (∀ (run : Unit → Out) (x : ν) (z : ℤ),
      generate_image run (some x) (some z) = Except.error noiseSeedMsg) ∧
    (∀ (run : St → Out × St) (x : ν) (z : ℤ) (m : String) (w : List ℚ)
        (st : St),
      prompt_to_prompt run (some x) (some z) m w st =
        (Except.error noiseSeedMsg, st)) ∧
    (∀ (run : Unit → Out) (x : ν) (z : ℤ),
      inpaint run (some x) (some z) = Except.error inpaintNoiseSeedMsg) ∧
    (∀ (tokenize : String → List ℤ) (text_encoder : List ℤ → Ctx)
        (p : String), MAX_PROMPT_LENGTH < (tokenize p).length →
      encode_text tokenize text_encoder p = Except.error promptTooLongMsg) ∧
    (∀ (run : St → Out × St) (n : Option ν) (m : String) (w : List ℚ)
        (st : St), m ∉ ["refine", "replace", "reweight"] →
      prompt_to_prompt run n none m w st = (Except.error methodMsg, st)) ∧
    (∀ (run : St → Out × St) (n : Option ν) (st : St),
      prompt_to_prompt run n none "reweight" [] st =
        (Except.error reweightMsg, st)) := by
  refine ⟨?_, ?_, ?_, ?_, ?_, ?_⟩
  · intro run x z; simp [generate_image]
  · intro run x z m w st; simp [prompt_to_prompt]
  · intro run x z; simp [inpaint]
  · intro tokenize text_encoder p hp; simp [encode_text, hp]
  · intro run n m w st hm; simp [prompt_to_prompt, hm]
  · intro run n st; simp [prompt_to_prompt]

/-- C9 witness: each error path exercised at concrete inputs. -/
theorem C9_witness :
    generate_image (fun _ => ()) (some ()) (some (0 : ℤ)) =
      Except.error noiseSeedMsg ∧
    prompt_to_prompt (fun s : Unit => ((), s)) (some ()) (some (0 : ℤ))
        "refine" [] () = (Except.error noiseSeedMsg, ()) ∧
    inpaint (fun _ => ()) (some ()) (some (0 : ℤ)) =
      Except.error inpaintNoiseSeedMsg ∧
    encode_text (fun _ => List.replicate 78 (0 : ℤ)) (fun _ => ()) "" =
      Except.error promptTooLongMsg ∧
    prompt_to_prompt (fun s : Unit => ((), s)) (none : Option Unit) none
        "bogus" [] () = (Except.error methodMsg, ()) ∧
    prompt_to_prompt (fun s : Unit => ((), s)) (none : Option Unit) none
        "reweight" [] () = (Except.error reweightMsg, ()) :=
  ⟨(@C9_usage_errors Unit Unit Unit Unit).1 (fun _ => ()) () 0,
    (@C9_usage_errors Unit Unit Unit Unit).2.1 (fun s => ((), s)) () 0
      "refine" [] (),
    (@C9_usage_errors Unit Unit Unit Unit).2.2.1 (fun _ => ()) () 0,
    (@C9_usage_errors Unit Unit Unit Unit).2.2.2.1
      (fun _ => List.replicate 78 (0 : ℤ)) (fun _ => ()) "" (by decide),
    (@C9_usage_errors Unit Unit Unit Unit).2.2.2.2.1 (fun s => ((), s)) none
      "bogus" [] () (by decide),
    (@C9_usage_errors Unit Unit Unit Unit).2.2.2.2.2 (fun s => ((), s)) none
      ()⟩

/-- C10: a bare float `x` passed as an attention-steps parameter is
coerced to the window `(0.0, x)`; in particular `x = 0.0` yields the
window `(0.0, 0.0)`, whose membership test accepts exactly
`t_scale = 0.0`. -/
theorem C10_float_window_coercion (x t : ℚ) :
    coerceAttnSteps (Sum.inl x) = (0, x) ∧
    (inWindow (coerceAttnSteps (Sum.inl 0)) t = true ↔ t = 0) := by
  refine ⟨rfl, ?_⟩
  simp only [coerceAttnSteps, inWindow, decide_eq_true_eq]
  constructor
  · rintro ⟨hl, hr⟩; exact le_antisymm hr hl
  · rintro rfl; exact ⟨le_refl 0, le_refl 0⟩
